import Mathlib

/-!
Verification development for the VR_Racer backend.

The definitions below are a shallow embedding of the Python source:
`server.py` (credential store, JWT token authority, auth gate,
camera manager, signaling teardown handler) and
`Denis_Version/auth.py` / `Denis_Version/camera.py` /
`Denis_Version/main_webrtc.py` (admin seeding variant, recording
coordinator).  External effects (SQLite, Fernet, HMAC, the camera
hardware) are modelled by explicit state passing and abstract
deterministic functions; each definition has a doc comment naming the
source function and lines it embeds.
-/

namespace VRRacer

/-- Model of a Fernet ciphertext as stored in the `username` column.
`enc p` is `fernet.encrypt(p)` under the single process key;
`corrupt k` is any byte string that `fernet.decrypt` rejects
(raises `InvalidToken`).  Fernet is authenticated encryption, so
decryption of `enc p` yields `p` and decryption of anything not
produced under the process key fails. -/
inductive Ciph where
  | enc (plain : String)
  | corrupt (tag : Nat)
deriving DecidableEq, Repr

/-- Model of `fernet.decrypt(...).decode()` (server.py, used at lines
225, 261, 293, 308, 325, 352): succeeds exactly on ciphertexts made by
the process key; a raised exception is `none`. -/
def decrypt : Ciph → Option String
  | Ciph.enc p => some p
  | Ciph.corrupt _ => none

/-- Abstract model of `hashlib.sha256(s).hexdigest()`: a deterministic
one-way function, represented by an injective tagging of the input.
The source only ever compares digests for equality. -/
def sha256hex (s : String) : String :=
  "sha256(" ++ s ++ ")"

/-- `hash_pw` (server.py 167-168): SHA-256 hex digest of the UTF-8
password. -/
def hash_pw (password : String) : String :=
  sha256hex password

/-- One row of the `users` table (server.py 201-208):
`(id, username, password_hash, is_admin)` with the username stored as
Fernet ciphertext and `is_admin` a SQLite integer (0 or 1 as written
by this code). -/
structure Row where
  id : Nat
  username : Ciph
  password_hash : String
  is_admin : Nat
deriving DecidableEq, Repr

/-- The user store: the rows of the `users` table in `id` order
(inserts append with the AUTOINCREMENT id `nextId`). -/
structure Store where
  rows : List Row
  nextId : Nat
deriving DecidableEq, Repr

/-- Model of the Python `str.lower()` method: lower-case the
characters one by one.  The names handled by this code are ASCII, on
which this agrees with Python. -/
def pyLower (s : String) : String :=
  String.mk (s.data.map Char.toLower)

/-- `username_exists` (server.py 253-265): linear scan; the
username ciphertext of each row is decrypted, rows that fail to decrypt are
skipped (`except: pass`), and the comparison is case-insensitive
(`.lower()` on both sides). -/
def username_exists (rows : List Row) (username : String) : Bool :=
  rows.any fun r =>
    match decrypt r.username with
    | some name => pyLower name == pyLower username
    | none => false

/-- `create_user` (server.py 267-283): reject if `username_exists`,
otherwise insert one row with freshly encrypted username, hashed
password and `is_admin = 0`.  (The `sqlite3.IntegrityError` branch
guards the UNIQUE constraint on the ciphertext column; Fernet
ciphertexts of a name not already present never collide with stored
ones, so the branch is not reachable in the model.) -/
def create_user (st : Store) (username password : String) : Store × Bool :=
  if username_exists st.rows username then
    (st, false)
  else
    ({ rows := st.rows ++
        [{ id := st.nextId, username := Ciph.enc username,
           password_hash := hash_pw password, is_admin := 0 }],
       nextId := st.nextId + 1 },
     true)

/-- Result of `check_user` (server.py 285-297): the
`{"ok": ..., "admin": ...}` dictionary. -/
structure AuthResult where
  ok : Bool
  admin : Bool
deriving DecidableEq, Repr

/-- `check_user` (server.py 285-297): scan all rows in order; a row
whose username fails to decrypt is skipped (`except: continue`); the
first row whose decrypted name equals `username` exactly and whose
stored hash equals `hash_pw password` authenticates, with
`admin := bool(is_admin)`. -/
def check_user (rows : List Row) (username password : String) : AuthResult :=
  match rows with
  | [] => { ok := false, admin := false }
  | r :: rest =>
    match decrypt r.username with
    | some name =>
      if name == username && r.password_hash == hash_pw password then
        { ok := true, admin := r.is_admin != 0 }
      else
        check_user rest username password
    | none => check_user rest username password

/-- One element of the list returned by `get_all_users`
(server.py 299-312). -/
structure UserView where
  id : Nat
  username : String
  is_admin : Bool
deriving DecidableEq, Repr

/-- `get_all_users` (server.py 299-312): every row is listed; a row
whose username fails to decrypt gets the placeholder name
"⚠️ Unlesbar" instead of raising. -/
def get_all_users (rows : List Row) : List UserView :=
  rows.map fun r =>
    { id := r.id,
      username := (decrypt r.username).getD "⚠️ Unlesbar",
      is_admin := r.is_admin != 0 }

/-- `SELECT ... FROM users WHERE id = ?` followed by `fetchone()`
(server.py 317-318, 344-345): the first row with the given id. -/
def findRow (rows : List Row) (user_id : Nat) : Option Row :=
  rows.find? fun r => r.id == user_id

/-- The two seeded administrator names (server.py 213-216, 330, 357). -/
def ADMIN_NAMES : List String := ["Admin_G", "Admin_D"]

/-- `delete_user` (server.py 314-339): fetch the row by id (absent
row: `False`); decrypt the username, an undecryptable one counting as
`""`; refuse if the name is a seeded admin name or the flag is 1;
otherwise delete the row (`rowcount > 0` holds since the row was
fetched). -/
def delete_user (st : Store) (user_id : Nat) : Store × Bool :=
  match findRow st.rows user_id with
  | none => (st, false)
  | some row =>
    let name := (decrypt row.username).getD ""
    if ADMIN_NAMES.contains name || row.is_admin == 1 then
      (st, false)
    else
      ({ st with rows := st.rows.filter fun r => r.id != user_id }, true)

/-- Python truthiness of an optional string argument
(`if new_username:` / `if new_password:` in server.py 362, 369):
`None` and `""` are falsy. -/
def truthy : Option String → Bool
  | some s => s != ""
  | none => false

/-- `update_user` (server.py 341-374): fetch by id
(absent: `(False, "not_found")`); decrypt the username, an
undecryptable one counting as `""`; refuse admins with
`(False, "admin_locked")`; if a truthy new username is given and
`username_exists` holds for it (the scan includes the row being
updated), refuse with `(False, "name_exists")`; otherwise apply the
truthy updates to the row and return `(True, "ok")`. -/
def update_user (st : Store) (user_id : Nat)
    (new_username new_password : Option String) : Store × Bool × String :=
  match findRow st.rows user_id with
  | none => (st, false, "not_found")
  | some row =>
    let name := (decrypt row.username).getD ""
    if ADMIN_NAMES.contains name || row.is_admin == 1 then
      (st, false, "admin_locked")
    else if truthy new_username && username_exists st.rows (new_username.getD "") then
      (st, false, "name_exists")
    else
      let rows1 :=
        if truthy new_username then
          st.rows.map fun r =>
            if r.id == user_id then
              { r with username := Ciph.enc (new_username.getD "") }
            else r
        else st.rows
      let rows2 :=
        if truthy new_password then
          rows1.map fun r =>
            if r.id == user_id then
              { r with password_hash := hash_pw (new_password.getD "") }
            else r
        else rows1
      ({ st with rows := rows2 }, true, "ok")

/-- The set of decryptable usernames collected by `init_db`
(server.py 219-228) before seeding. -/
def existing_names (rows : List Row) : List String :=
  rows.filterMap fun r => decrypt r.username

/-- One iteration of the admin-seeding loop in `init_db`
(server.py 231-243): skip when the configured password is falsy, skip
when the decrypted-name set already contains the admin name, otherwise
insert a fresh row with `is_admin = 1` and the hash of the configured
password.  An existing row is never modified. -/
def seed_admin (names : List String) (st : Store) (name pw : String) : Store :=
  if pw == "" then st
  else if names.contains name then st
  else
    { rows := st.rows ++
        [{ id := st.nextId, username := Ciph.enc name,
           password_hash := hash_pw pw, is_admin := 1 }],
      nextId := st.nextId + 1 }

/-- `init_db` (server.py 194-247), seeding part: the decryptable names
are collected once, then `Admin_G` and `Admin_D` are seeded in that
order with the configured passwords `ADMIN_G_PASS` / `ADMIN_D_PASS`. -/
def init_db (st : Store) (admin_g_pass admin_d_pass : String) : Store :=
  let names := existing_names st.rows
  let st1 := seed_admin names st "Admin_G" admin_g_pass
  seed_admin names st1 "Admin_D" admin_d_pass

/-- The JWT payload `{"user": ..., "is_admin": ..., "exp": ...}`
(server.py 382), with `exp` in UNIX seconds. -/
structure Claims where
  user : String
  is_admin : Bool
  exp : Nat
deriving DecidableEq, Repr

/-- Abstract model of the HMAC-SHA-256 signature over the encoded
payload (`jwt.encode(..., algorithm="HS256")`, server.py 383): a
deterministic MAC of the secret and the payload fields.  The source
only ever compares a presented signature with the recomputed one. -/
def hmacSign (secret : String) (c : Claims) : String :=
  "HS256(" ++ secret ++ "|" ++ c.user ++ "|" ++
    (if c.is_admin then "1" else "0") ++ "|" ++ toString c.exp ++ ")"

/-- A structurally well-formed JWT: a payload plus the signature the
issuer attached (which may or may not verify under a given secret). -/
structure Token where
  payload : Claims
  sig : String
deriving DecidableEq, Repr

/-- A presented token string: either a structurally valid JWT or an
arbitrary string that fails JWT parsing (`jwt.InvalidTokenError`). -/
inductive Wire where
  | tok (t : Token)
  | garbage (s : String)
deriving DecidableEq, Repr

/-- `create_token` (server.py 380-384): payload
`{user, is_admin, exp := now + JWT_EXPIRE_MINUTES minutes}` signed
with the process secret. -/
def create_token (secret : String) (expire_minutes : Nat) (now : Nat)
    (username : String) (is_admin : Bool) : Token :=
  let payload : Claims :=
    { user := username, is_admin := is_admin, exp := now + expire_minutes * 60 }
  { payload := payload, sig := hmacSign secret payload }

/-- `decode_token` (server.py 386-390): `jwt.decode` with HS256 and
the process secret; an unparseable string, a signature that does not
verify, or an expired `exp` claim each raise and yield `None`.
PyJWT (leeway 0) treats `exp ≤ now` as expired. -/
def decode_token (secret : String) (now : Nat) (w : Wire) : Option Claims :=
  match w with
  | Wire.garbage _ => none
  | Wire.tok t =>
    if t.sig == hmacSign secret t.payload then
      if t.payload.exp ≤ now then none
      else some t.payload
    else none

/-- The `Authorization` header of a request as seen by `require_auth`
(server.py 393-396): absent (`headers.get` returns `""`), present but
not of the form `Bearer <token>`, or a bearer with a token string. -/
inductive AuthHeader where
  | absent
  | notBearer (raw : String)
  | bearer (w : Wire)
deriving DecidableEq, Repr

/-- `require_auth` (server.py 392-402): `None` when the header is
absent or not a bearer, when the token fails to decode, or when admin
is required and the decoded `is_admin` claim is falsy; otherwise the
decoded claims. -/
def require_auth (secret : String) (now : Nat) (hdr : AuthHeader)
    (admin_required : Bool) : Option Claims :=
  match hdr with
  | AuthHeader.absent => none
  | AuthHeader.notBearer _ => none
  | AuthHeader.bearer w =>
    match decode_token secret now w with
    | none => none
    | some data =>
      if admin_required && !data.is_admin then none else some data

/-- The authentication gate of the admin handlers `admin_users` /
`admin_delete` / `admin_update` (server.py 479-503): every `None`
from `require_auth(request, admin_required=True)` is answered with
HTTP 401 "Unauthorized"; a successful gate proceeds (modelled as
200). -/
def admin_route_status (secret : String) (now : Nat) (hdr : AuthHeader) : Nat :=
  match require_auth secret now hdr true with
  | none => 401
  | some _ => 200

/-- The authentication gate of the non-admin bearer route `offer`
(server.py 437-439): `require_auth(request)` with the default
`admin_required=False`; a `None` is answered with HTTP 401
"Unauthorized"; a successful gate proceeds (modelled as 200). -/
def offer_auth_status (secret : String) (now : Nat) (hdr : AuthHeader) : Nat :=
  match require_auth secret now hdr false with
  | none => 401
  | some _ => 200

/-- `os.getenv(key, dflt)` over an environment modelled as a
finite map from variable names to values. -/
def getenv (env : String → Option String) (key dflt : String) : String :=
  (env key).getD dflt

/-- Line `JWT_SECRET = os.getenv("JWT_SECRET", "fallback_secret_key")`
(server.py 149). -/
def JWT_SECRET_of (env : String → Option String) : String :=
  getenv env "JWT_SECRET" "fallback_secret_key"

/-- Model of the Python `int(...)` constructor on the strings that can
reach it here: a non-empty all-digit string parses to the decimal
value, anything else raises, modelled as `none`. -/
def pyInt? (s : String) : Option Nat :=
  if s.data ≠ [] ∧ s.data.all Char.isDigit then
    some (s.data.foldl (fun n c => n * 10 + (c.toNat - 48)) 0)
  else none

/-- `JWT_EXPIRE_MINUTES = int(os.getenv("JWT_EXPIRE_MINUTES", "60"))`
(server.py 150).  `int(...)` on a non-numeric string raises (startup
fatal), modelled as `none`. -/
def JWT_EXPIRE_MINUTES_of (env : String → Option String) : Option Nat :=
  pyInt? (getenv env "JWT_EXPIRE_MINUTES" "60")

/-- Resolution of the module-level JWT configuration at import time
(server.py 149-150): the secret always resolves (to the hard-coded
fallback when the variable is absent); the whole startup fails only
when `int()` raises on an explicitly set non-numeric expiry. -/
def startup_config (env : String → Option String) : Option (String × Nat) :=
  match JWT_EXPIRE_MINUTES_of env with
  | some m => some (JWT_SECRET_of env, m)
  | none => none

/-- The VR-relevant state of `CameraManager` (server.py 63-143):
the stereo reference count `_vr_clients` and whether the secondary
(left) capture process exists (`camera_left_proc is not None`). -/
structure CamState where
  vr_clients : Nat
  left_running : Bool
deriving DecidableEq, Repr

/-- `CameraManager.__init__` (server.py 64-95): no VR clients, no
left capture process. -/
def initCam : CamState :=
  { vr_clients := 0, left_running := false }

/-- `acquire_vr` (server.py 97-114): start the left capture process
if it is not running, then increment the reference count. -/
def acquire_vr (s : CamState) : CamState :=
  { vr_clients := s.vr_clients + 1, left_running := true }

/-- `release_vr` (server.py 116-124): decrement the count only when
it is positive (clamp at 0); when the count is 0 afterwards, stop the
left capture process if it exists. -/
def release_vr (s : CamState) : CamState :=
  let n := if s.vr_clients > 0 then s.vr_clients - 1 else s.vr_clients
  if n == 0 then { vr_clients := n, left_running := false }
  else { vr_clients := n, left_running := s.left_running }

/-- A sequence of stereo acquire/release calls against one
`CameraManager`. -/
inductive CamEvent where
  | acquire
  | release
deriving DecidableEq, Repr

/-- Apply one acquire/release call to the manager state. -/
def camStep (s : CamState) (e : CamEvent) : CamState :=
  match e with
  | CamEvent.acquire => acquire_vr s
  | CamEvent.release => release_vr s

/-- Run a sequence of acquire/release calls from the initial manager
state. -/
def runCam (events : List CamEvent) : CamState :=
  events.foldl camStep initCam

/-- The peer-connection state values used by the teardown handler
(server.py 454): the aiortc `connectionState` values. -/
inductive ConnState where
  | stNew
  | connecting
  | connected
  | disconnected
  | failed
  | closed
deriving DecidableEq, Repr

/-- The membership test of the tuple
`("failed", "closed", "disconnected")` in the handler
(server.py 454). -/
def qualifying (s : ConnState) : Bool :=
  s == ConnState.failed || s == ConnState.closed || s == ConnState.disconnected

/-- One VR peer together with the shared camera state: whether the
peer is still in the active set `pcs`, its `is_vr` flag, and how many
times `release_vr` has been invoked on its behalf. -/
structure PeerSys where
  cam : CamState
  inPcs : Bool
  is_vr : Bool
  releases : Nat
deriving DecidableEq, Repr

/-- The `on_state_change` handler registered in `offer`
(server.py 452-458), invoked once per `connectionstatechange` event
with the connection state current at that point: if the state is
`failed`, `closed` or `disconnected`, close the peer, release the
stereo reference when `is_vr`, and discard the peer from `pcs`.
The handler keeps no record of having already released, so it
releases on every qualifying event.  aiortc emits one
`connectionstatechange` per change of `connectionState`, including
the change to `closed` caused by the `pc.close()` call inside the
handler itself. -/
def on_state_change (sys : PeerSys) (state : ConnState) : PeerSys :=
  if qualifying state then
    { sys with
        cam := if sys.is_vr then release_vr sys.cam else sys.cam,
        releases := if sys.is_vr then sys.releases + 1 else sys.releases,
        inPcs := false }
  else sys

/-- Deliver a sequence of `connectionstatechange` events to the
handler of one peer. -/
def runPeerEvents (sys : PeerSys) (states : List ConnState) : PeerSys :=
  states.foldl on_state_change sys

/-- The concrete failing scenario for the exactly-once release
invariant: two VR peers have acquired the stereo reference
(`acquire_vr` twice, count 2, left sensor running); one of them fails
(`connectionstatechange` with state `failed`), whereupon the handler
closes it, which emits a second event with state `closed`. -/
def doubleReleaseRun : PeerSys :=
  runPeerEvents
    { cam := acquire_vr (acquire_vr initCam),
      inPcs := true, is_vr := true, releases := 0 }
    [ConnState.failed, ConnState.closed]

/-- The recording-relevant state of `CameraController`
(Denis_Version/camera.py 60-64): `is_recording`,
`recording_start_time` and `current_recording_path`. -/
structure RecState where
  is_recording : Bool
  recording_start_time : Option Nat
  current_recording_path : Option String
deriving DecidableEq, Repr

/-- `CameraController.__init__` (Denis_Version/camera.py 60-64): not
recording. -/
def idleRec : RecState :=
  { is_recording := false, recording_start_time := none,
    current_recording_path := none }

/-- `CameraController.start_recording` (Denis_Version/camera.py
283-336): refuse with "Es läuft bereits eine Aufnahme" when a
recording is active, leaving the state untouched; otherwise start the
hardware encoder (`hw_ok` abstracts whether
`self.camera.start_recording` raises) and on success set the status
fields; on a raised exception `is_recording` is forced to `False` and
a failure is returned. -/
def start_recording (s : RecState) (output_path : String) (now : Nat)
    (hw_ok : Bool) : RecState × Bool × String :=
  if s.is_recording then
    (s, false, "Es läuft bereits eine Aufnahme")
  else if hw_ok then
    ({ is_recording := true, recording_start_time := some now,
       current_recording_path := some output_path },
     true, "Aufnahme gestartet")
  else
    ({ s with is_recording := false }, false, "Fehler beim Starten")

/-- `CameraController.stop_recording` (Denis_Version/camera.py
338-395): refuse when no recording is active; otherwise stop the
hardware encoder and clear the status fields; both the success path
and the exception path set `is_recording = False`.  The returned
statistics dictionary (duration, file size) is not modelled. -/
def stop_recording (s : RecState) (hw_ok : Bool) : RecState × Bool :=
  if !s.is_recording then
    (s, false)
  else if hw_ok then
    ({ is_recording := false, recording_start_time := none,
       current_recording_path := none }, true)
  else
    ({ s with is_recording := false }, false)

/-- The guarded body of `admin_start_recording`
(Denis_Version/main_webrtc.py 354-400), run under `recording_lock`:
400 when `current_recording` is set and the camera is recording, 507
on a storage warning, otherwise delegate to
`camera.start_recording`; on its success record `current_recording`
and answer 200, on its failure answer 500. -/
def admin_start_recording (cur : Option String) (cam : RecState)
    (storage_warning : Bool) (path : String) (now : Nat) (hw_ok : Bool) :
    Option String × RecState × Nat :=
  if cur.isSome && cam.is_recording then
    (cur, cam, 400)
  else if storage_warning then
    (cur, cam, 507)
  else
    let r := start_recording cam path now hw_ok
    if r.2.1 then (some path, r.1, 200) else (cur, r.1, 500)

end VRRacer

namespace VRRacer.Denis

/-- One row of the Denis_Version `users` table
(Denis_Version/auth.py 69-81), restricted to the columns touched by
`create_user`: plaintext username, `hash:salt` credential, admin
flag, email. -/
structure DRow where
  username : String
  password_hash : String
  is_admin : Bool
  email : Option String
deriving DecidableEq, Repr

/-- `AuthManager.hash_password` (Denis_Version/auth.py 115-137):
`sha256(password + salt).hexdigest() ++ ":" ++ salt`; the random
16-byte salt from `secrets.token_hex` is passed in explicitly. -/
def hash_password (salt : String) (password : String) : String :=
  VRRacer.sha256hex (password ++ salt) ++ ":" ++ salt

/-- `AuthManager.create_user` (Denis_Version/auth.py 186-253): if the
username exists and `force_create` is false, fail; if it exists and
`force_create` is true, overwrite the password hash, admin
flag and email; otherwise insert a new row. -/
def create_user (rows : List DRow) (username password : String)
    (is_admin : Bool) (email : Option String) (force_create : Bool)
    (salt : String) : List DRow × Bool :=
  let present := rows.any fun r => r.username == username
  if present && !force_create then
    (rows, false)
  else if present then
    (rows.map fun r =>
      if r.username == username then
        { r with password_hash := hash_password salt password,
                 is_admin := is_admin, email := email }
      else r,
     true)
  else
    (rows ++ [{ username := username,
                password_hash := hash_password salt password,
                is_admin := is_admin, email := email }],
     true)

/-- `AuthManager.create_default_admins` (Denis_Version/auth.py
89-113): `create_user` with `force_create=True` for `Admin_G` with
the hard-coded password "admin1234" and for `Admin_D` with the
hard-coded password "123456789"; existing accounts are overwritten.
`salt1`/`salt2` are the fresh salts drawn inside the two
`hash_password` calls. -/
def create_default_admins (rows : List DRow) (salt1 salt2 : String) :
    List DRow :=
  let rows1 := (create_user rows "Admin_G" "admin1234" true none true salt1).1
  (create_user rows1 "Admin_D" "123456789" true none true salt2).1

end VRRacer.Denis

namespace VRRacer

/-- Concrete store for the C1 witness: the seeded `Admin_G` record. -/
def st_c1 : Store :=
  { rows := [{ id := 1, username := Ciph.enc "Admin_G",
               password_hash := hash_pw "admin123", is_admin := 1 }],
    nextId := 2 }

/-- Concrete store for the C9 witness: one ordinary user `Bob`. -/
def st_c9 : Store :=
  { rows := [{ id := 1, username := Ciph.enc "Bob",
               password_hash := hash_pw "x", is_admin := 0 }],
    nextId := 2 }

/-- Concrete store for the C6 counterexample: a pre-existing `Admin_G`
record with a stale password hash and a cleared admin flag. -/
def st_c6 : Store :=
  { rows := [{ id := 1, username := Ciph.enc "Admin_G",
               password_hash := "stale-hash", is_admin := 0 }],
    nextId := 2 }

/-- Concrete token for the C5 counterexample: issued with the process
secret "k" for the non-admin user `bob`, expiring at 600. -/
def c5_token : Token :=
  create_token "k" 10 0 "bob" false

/-- Concrete token for the C5 witness: a valid token for another
non-admin user. -/
def c5_token2 : Token :=
  create_token "k2" 30 100 "eve" false

/-- An environment with neither `JWT_SECRET` nor `JWT_EXPIRE_MINUTES`
set. -/
def env_empty : String → Option String :=
  fun _ => none

/-- An environment that sets `JWT_EXPIRE_MINUTES` to a non-numeric
string and leaves everything else unset. -/
def env_badexp : String → Option String :=
  fun k => if k = "JWT_EXPIRE_MINUTES" then some "abc" else none

/-- Concrete recording state for the C8 witness: a recording started
at time 5 writing to `a.mp4`. -/
def rec_active : RecState :=
  { is_recording := true, recording_start_time := some 5,
    current_recording_path := some "a.mp4" }

/-- The stereo reference count determines whether the secondary (left)
sensor is running: after any sequence of `acquire_vr`/`release_vr`
calls, including spurious releases (which the code clamps at count 0),
the left capture process exists iff the live count is positive. -/
theorem left_running_iff_clients_pos (events : List CamEvent) :
    (runCam events).left_running = decide (0 < (runCam events).vr_clients) := by
  suffices h : ∀ (evs : List CamEvent) (s : CamState),
      s.left_running = decide (0 < s.vr_clients) →
      (evs.foldl camStep s).left_running =
        decide (0 < (evs.foldl camStep s).vr_clients) by
    exact h events initCam rfl
  intro evs
  induction evs with
  | nil => intro s hs; simpa using hs
  | cons e rest ih =>
    intro s hs
    apply ih
    cases e with
    | acquire => simp [camStep, acquire_vr]
    | release =>
      rcases s with ⟨n, b⟩
      cases n with
      | zero => simp [camStep, release_vr]
      | succ k =>
        cases k with
        | zero => simp [camStep, release_vr]
        | succ m => simpa [camStep, release_vr] using hs

/-- C4: evaluating the teardown handler at the failing input.  Two VR
peers hold the stereo reference (count 2, left sensor running).  One
peer fails: the transport emits `connectionstatechange` with state
`failed`, the handler releases and closes the peer, and the close
emits a second event with state `closed`, on which the handler
releases again.  The reference is released twice for that one peer,
the count drops to 0 and the secondary sensor is stopped although the
other VR peer is still connected; the claim requires exactly one
release per peer. -/
theorem double_release_on_failed_then_closed :
    doubleReleaseRun.releases = 2 ∧
    doubleReleaseRun.inPcs = false ∧
    doubleReleaseRun.cam = { vr_clients := 0, left_running := false } :=
  ⟨rfl, rfl, rfl⟩

/-- C1: for a stored record that is an administrator either by flag or
by decrypted name, `delete_user` fails and `update_user` fails with
reason "admin_locked", and in both cases the store is returned
unchanged. -/
theorem admin_rows_locked (st : Store) (uid : Nat) (r : Row)
    (nu np : Option String)
    (hfind : findRow st.rows uid = some r)
    (hadm : r.is_admin = 1 ∨ decrypt r.username = some "Admin_G" ∨
            decrypt r.username = some "Admin_D") :
    delete_user st uid = (st, false) ∧
    update_user st uid nu np = (st, false, "admin_locked") := by
  constructor
  · simp only [delete_user, hfind]
    rcases hadm with h | h | h
    · simp [h]
    · simp [h, ADMIN_NAMES]
    · simp [h, ADMIN_NAMES]
  · simp only [update_user, hfind]
    rcases hadm with h | h | h
    · simp [h]
    · simp [h, ADMIN_NAMES]
    · simp [h, ADMIN_NAMES]

/-- C1 witness: the seeded admin record in `st_c1` can be neither
deleted nor updated. -/
theorem admin_rows_locked_witness :
    delete_user st_c1 1 = (st_c1, false) ∧
    update_user st_c1 1 (some "Eve") (some "pw") = (st_c1, false, "admin_locked") :=
  admin_rows_locked st_c1 1
    { id := 1, username := Ciph.enc "Admin_G",
      password_hash := hash_pw "admin123", is_admin := 1 }
    (some "Eve") (some "pw") rfl (Or.inl rfl)

/-- C7: `create_user` succeeds iff no existing record decrypts to the
requested name under case-insensitive comparison; a successful call
appends exactly one non-admin record for the name, after which
`username_exists` holds for it, and a rejected call leaves the store
unchanged. -/
theorem create_user_spec (st : Store) (u p : String) :
    ((create_user st u p).2 = true ↔ username_exists st.rows u = false) ∧
    (username_exists st.rows u = true → create_user st u p = (st, false)) ∧
    (username_exists st.rows u = false →
      (create_user st u p).1.rows =
        st.rows ++ [{ id := st.nextId, username := Ciph.enc u,
                      password_hash := hash_pw p, is_admin := 0 }] ∧
      username_exists (create_user st u p).1.rows u = true) := by
  cases hx : username_exists st.rows u with
  | true => simp [create_user, hx]
  | false =>
    have hrows : (create_user st u p).1.rows =
        st.rows ++ [{ id := st.nextId, username := Ciph.enc u,
                      password_hash := hash_pw p, is_admin := 0 }] := by
      simp [create_user, hx]
    refine ⟨by simp [create_user, hx], by simp [hx], fun _ => ⟨hrows, ?_⟩⟩
    rw [hrows]
    unfold username_exists
    rw [List.any_eq_true]
    refine ⟨{ id := st.nextId, username := Ciph.enc u,
              password_hash := hash_pw p, is_admin := 0 }, by simp, ?_⟩
    simp [decrypt]

/-- C7 witness: registering `alice` in the empty store succeeds and
makes her visible to the existence check; registering on `st_c9`,
where `Bob` exists, fails for `bob`. -/
theorem create_user_spec_witness :
    (username_exists (create_user { rows := [], nextId := 1 } "alice" "p1").1.rows
       "alice" = true) ∧
    create_user st_c9 "bob" "p2" = (st_c9, false) :=
  ⟨((create_user_spec { rows := [], nextId := 1 } "alice" "p1").2.2 rfl).2,
   (create_user_spec st_c9 "bob" "p2").2.1 (by decide)⟩

end VRRacer

namespace VRRacer

/-- C9: renaming a non-admin record to its own current name (up to
letter case) is refused with "name_exists", because the existence
scan includes the record being updated. -/
theorem self_rename_refused (st : Store) (uid : Nat) (r : Row)
    (nm nu : String) (np : Option String)
    (hfind : findRow st.rows uid = some r)
    (hname : decrypt r.username = some nm)
    (hflag : r.is_admin ≠ 1)
    (hnotseed : ADMIN_NAMES.contains nm = false)
    (hne : nu ≠ "")
    (hcase : pyLower nu = pyLower nm) :
    update_user st uid (some nu) np = (st, false, "name_exists") := by
  have hmem : r ∈ st.rows := List.mem_of_find?_eq_some hfind
  have hex : username_exists st.rows nu = true := by
    unfold username_exists
    rw [List.any_eq_true]
    exact ⟨r, hmem, by simp [hname, hcase]⟩
  have hnm : ¬nm = "Admin_G" ∧ ¬nm = "Admin_D" := by
    simpa [ADMIN_NAMES] using hnotseed
  simp only [update_user, hfind]
  simp [hname, truthy, hne, hex, hflag, ADMIN_NAMES, hnm.1, hnm.2]

/-- C9 witness: renaming `Bob` (id 1 in `st_c9`) to `bob` fails with
"name_exists". -/
theorem self_rename_refused_witness :
    update_user st_c9 1 (some "bob") none = (st_c9, false, "name_exists") :=
  self_rename_refused st_c9 1
    { id := 1, username := Ciph.enc "Bob",
      password_hash := hash_pw "x", is_admin := 0 }
    "Bob" "bob" none rfl rfl (by decide) (by decide) (by decide) (by decide)

/-- C10: store reads are total on rows whose username ciphertext does
not decrypt.  Such a row never satisfies the existence check, never
authenticates, is listed with the placeholder name, and `delete_user`
and `update_user` treat its name as empty: a corrupt non-admin row
can still be deleted, and an update with no changes still reports
success. -/
theorem corrupt_rows_total :
    (∀ (i : Nat) (c : Ciph) (ph : String) (a : Nat) (rows : List Row)
       (u p : String),
      decrypt c = none →
      username_exists
          ({ id := i, username := c, password_hash := ph, is_admin := a } :: rows) u
        = username_exists rows u ∧
      check_user
          ({ id := i, username := c, password_hash := ph, is_admin := a } :: rows) u p
        = check_user rows u p ∧
      get_all_users
          ({ id := i, username := c, password_hash := ph, is_admin := a } :: rows)
        = { id := i, username := "⚠️ Unlesbar", is_admin := a != 0 }
            :: get_all_users rows) ∧
    (∀ (st : Store) (uid : Nat) (r : Row),
      findRow st.rows uid = some r →
      decrypt r.username = none →
      r.is_admin ≠ 1 →
      (delete_user st uid).2 = true ∧
      update_user st uid none none = (st, true, "ok")) := by
  constructor
  · intro i c ph a rows u p hdec
    refine ⟨?_, ?_, ?_⟩
    · simp [username_exists, hdec]
    · simp only [check_user, hdec]
    · simp [get_all_users, hdec]
  · intro st uid r hfind hdec hflag
    constructor
    · simp only [delete_user, hfind]
      simp [hdec, hflag, ADMIN_NAMES]
    · simp only [update_user, hfind]
      simp [hdec, hflag, ADMIN_NAMES, truthy]

/-- C10 witness: a concrete corrupt row is skipped by the existence
check and can still be deleted. -/
theorem corrupt_rows_total_witness :
    (username_exists
        [{ id := 1, username := Ciph.corrupt 0, password_hash := "ph", is_admin := 1 }]
        "alice"
      = username_exists [] "alice") ∧
    (delete_user
        { rows := [{ id := 7, username := Ciph.corrupt 3,
                     password_hash := "ph", is_admin := 0 }], nextId := 8 } 7).2
      = true :=
  ⟨(corrupt_rows_total.1 1 (Ciph.corrupt 0) "ph" 1 [] "alice" "pw" rfl).1,
   (corrupt_rows_total.2
      { rows := [{ id := 7, username := Ciph.corrupt 3,
                   password_hash := "ph", is_admin := 0 }], nextId := 8 }
      7
      { id := 7, username := Ciph.corrupt 3, password_hash := "ph", is_admin := 0 }
      rfl rfl (by decide)).1⟩

/-- C3: token verification fails on a signature that does not verify
under the process secret, on an expired `exp` claim, and on an
unparseable token string; a token produced by `create_token` with the
correct secret whose expiry lies in the future decodes to exactly its
`{user, is_admin, exp}` claims. -/
theorem token_verification (secret : String) (now : Nat) :
    (∀ t : Token, t.sig ≠ hmacSign secret t.payload →
       decode_token secret now (Wire.tok t) = none) ∧
    (∀ t : Token, t.payload.exp ≤ now →
       decode_token secret now (Wire.tok t) = none) ∧
    (∀ s : String, decode_token secret now (Wire.garbage s) = none) ∧
    (∀ issued mins u adm, now < issued + mins * 60 →
       decode_token secret now (Wire.tok (create_token secret mins issued u adm)) =
         some { user := u, is_admin := adm, exp := issued + mins * 60 }) := by
  refine ⟨fun t h => ?_, fun t h => ?_, fun s => rfl, fun issued mins u adm h => ?_⟩
  · simp [decode_token, h]
  · simp only [decode_token]
    split
    · simp [h]
    · rfl
  · have hne : ¬(issued + mins * 60 ≤ now) := by omega
    simp [decode_token, create_token, hne]

/-- C3 witness: a token issued at 0 with secret "k" and 10 minutes of
validity decodes at time 5; the same payload with a wrong signature is
rejected, and so is an expired token at time 700. -/
theorem token_verification_witness :
    decode_token "k" 5 (Wire.tok (create_token "k" 10 0 "u" false)) =
      some { user := "u", is_admin := false, exp := 600 } ∧
    decode_token "k" 5
        (Wire.tok { payload := { user := "u", is_admin := false, exp := 600 },
                    sig := "forged" }) = none ∧
    decode_token "k" 700 (Wire.tok (create_token "k" 10 0 "u" false)) = none :=
  ⟨(token_verification "k" 5).2.2.2 0 10 "u" false (by decide),
   (token_verification "k" 5).1
     { payload := { user := "u", is_admin := false, exp := 600 }, sig := "forged" }
     (by decide),
   (token_verification "k" 700).2.1 (create_token "k" 10 0 "u" false) (by decide)⟩

end VRRacer

namespace VRRacer

/-- A successful decode returns exactly the payload of the presented
token. -/
theorem decode_token_payload (secret : String) (now : Nat) (t : Token)
    (d : Claims) :
    decode_token secret now (Wire.tok t) = some d → d = t.payload := by
  simp only [decode_token]
  split
  · split
    · intro h; cases h
    · intro h; cases h; rfl
  · intro h; cases h

/-- C5 counterexample: `c5_token` is a perfectly valid token (it
decodes to its claims at time 0) whose `is_admin` claim is false, yet
the admin routes answer 401, not the 403 the claim requires for a
valid token lacking the admin role. -/
theorem valid_nonadmin_token_gets_401 :
    decode_token "k" 0 (Wire.tok c5_token) =
      some { user := "bob", is_admin := false, exp := 600 } ∧
    admin_route_status "k" 0 (AuthHeader.bearer (Wire.tok c5_token)) = 401 ∧
    admin_route_status "k" 0 (AuthHeader.bearer (Wire.tok c5_token)) ≠ 403 :=
  ⟨rfl, rfl, by decide⟩

/-- C5 (amended): on every authenticated route, the `require_auth`
gate denies with status 401 when the header is missing, malformed,
or carries an unparseable token, a bad signature, or an expired
token: shown both for the admin routes (`admin_users` /
`admin_delete` / `admin_update`, `admin_required=True`) and for the
non-admin bearer route `offer` (`admin_required=False`).  When the
token is valid but admin is required and its `is_admin` claim is
false, the admin routes also deny with 401, not 403: `require_auth`
returns the same `None` for role insufficiency as for invalid
tokens, and every handler maps `None` to 401, so no route produces
403 from the gate (each gate yields 401 or pass-through). -/
theorem auth_gate_denials (secret : String) (now : Nat) :
    admin_route_status secret now AuthHeader.absent = 401 ∧
    (∀ raw, admin_route_status secret now (AuthHeader.notBearer raw) = 401) ∧
    (∀ s, admin_route_status secret now (AuthHeader.bearer (Wire.garbage s)) = 401) ∧
    (∀ t : Token, t.sig ≠ hmacSign secret t.payload →
       admin_route_status secret now (AuthHeader.bearer (Wire.tok t)) = 401) ∧
    (∀ t : Token, t.payload.exp ≤ now →
       admin_route_status secret now (AuthHeader.bearer (Wire.tok t)) = 401) ∧
    (∀ t : Token, t.payload.is_admin = false →
       admin_route_status secret now (AuthHeader.bearer (Wire.tok t)) = 401) ∧
    (∀ hdr, admin_route_status secret now hdr = 401 ∨
            admin_route_status secret now hdr = 200) ∧
    offer_auth_status secret now AuthHeader.absent = 401 ∧
    (∀ raw, offer_auth_status secret now (AuthHeader.notBearer raw) = 401) ∧
    (∀ s, offer_auth_status secret now (AuthHeader.bearer (Wire.garbage s)) = 401) ∧
    (∀ t : Token, t.sig ≠ hmacSign secret t.payload →
       offer_auth_status secret now (AuthHeader.bearer (Wire.tok t)) = 401) ∧
    (∀ t : Token, t.payload.exp ≤ now →
       offer_auth_status secret now (AuthHeader.bearer (Wire.tok t)) = 401) ∧
    (∀ hdr, offer_auth_status secret now hdr = 401 ∨
            offer_auth_status secret now hdr = 200) := by
  refine ⟨rfl, fun raw => rfl, fun s => rfl, fun t h => ?_, fun t h => ?_,
    fun t h => ?_, fun hdr => ?_, rfl, fun raw => rfl, fun s => rfl,
    fun t h => ?_, fun t h => ?_, fun hdr => ?_⟩
  · simp [admin_route_status, require_auth, decode_token, h]
  · have hd : decode_token secret now (Wire.tok t) = none := by
      simp only [decode_token]
      split
      · simp [h]
      · rfl
    simp [admin_route_status, require_auth, hd]
  · cases hd : decode_token secret now (Wire.tok t) with
    | none => simp [admin_route_status, require_auth, hd]
    | some d =>
      have hdp := decode_token_payload secret now t d hd
      simp [admin_route_status, require_auth, hd, hdp, h]
  · cases hr : require_auth secret now hdr true with
    | none => exact Or.inl (by simp [admin_route_status, hr])
    | some d => exact Or.inr (by simp [admin_route_status, hr])
  · simp [offer_auth_status, require_auth, decode_token, h]
  · have hd : decode_token secret now (Wire.tok t) = none := by
      simp only [decode_token]
      split
      · simp [h]
      · rfl
    simp [offer_auth_status, require_auth, hd]
  · cases hr : require_auth secret now hdr false with
    | none => exact Or.inl (by simp [offer_auth_status, hr])
    | some d => exact Or.inr (by simp [offer_auth_status, hr])

/-- C5 witness: the denial statuses at concrete inputs: a missing
header and a valid non-admin token on an admin route, and a malformed
header and an expired token on the non-admin bearer route. -/
theorem auth_gate_denials_witness :
    admin_route_status "k2" 100 AuthHeader.absent = 401 ∧
    admin_route_status "k2" 100 (AuthHeader.bearer (Wire.tok c5_token2)) = 401 ∧
    offer_auth_status "k2" 100 (AuthHeader.notBearer "Basic xyz") = 401 ∧
    offer_auth_status "k2" 2000 (AuthHeader.bearer (Wire.tok c5_token2)) = 401 :=
  ⟨(auth_gate_denials "k2" 100).1,
   (auth_gate_denials "k2" 100).2.2.2.2.2.1 c5_token2 rfl,
   (auth_gate_denials "k2" 100).2.2.2.2.2.2.2.2.1 "Basic xyz",
   (auth_gate_denials "k2" 2000).2.2.2.2.2.2.2.2.2.2.2.1 c5_token2 (by decide)⟩

/-- C2 counterexample: with both `JWT_SECRET` and
`JWT_EXPIRE_MINUTES` absent from the environment, module
initialisation does not fail: it resolves to the hard-coded fallback
secret "fallback_secret_key" and the hard-coded default expiry of 60
minutes. -/
theorem missing_env_uses_hardcoded_defaults :
    startup_config env_empty = some ("fallback_secret_key", 60) := by
  decide

/-- C2 (amended): a missing `JWT_SECRET` resolves to the hard-coded
fallback secret, a missing `JWT_EXPIRE_MINUTES` resolves to the
hard-coded default of 60 minutes, and startup succeeds with both
defaults; startup fails only when `JWT_EXPIRE_MINUTES` is explicitly
set to a string that `int()` rejects. -/
theorem jwt_env_defaults (env : String → Option String) :
    (env "JWT_SECRET" = none → JWT_SECRET_of env = "fallback_secret_key") ∧
    (env "JWT_EXPIRE_MINUTES" = none → JWT_EXPIRE_MINUTES_of env = some 60) ∧
    (env "JWT_SECRET" = none → env "JWT_EXPIRE_MINUTES" = none →
       startup_config env = some ("fallback_secret_key", 60)) ∧
    (∀ s, env "JWT_EXPIRE_MINUTES" = some s → pyInt? s = none →
       startup_config env = none) := by
  refine ⟨fun h => ?_, fun h => ?_, fun h1 h2 => ?_, fun s h1 h2 => ?_⟩
  · simp [JWT_SECRET_of, getenv, h]
  · simp [JWT_EXPIRE_MINUTES_of, getenv, h]; decide
  · simp [startup_config, JWT_EXPIRE_MINUTES_of, JWT_SECRET_of, getenv, h1, h2]
    decide
  · simp [startup_config, JWT_EXPIRE_MINUTES_of, getenv, h1, h2]

/-- C2 witness: an environment whose `JWT_EXPIRE_MINUTES` is the
non-numeric string "abc" makes startup fail. -/
theorem jwt_env_defaults_witness :
    startup_config env_badexp = none :=
  (jwt_env_defaults env_badexp).2.2.2 "abc" (by decide) (by decide)

/-- C8: at most one recording is active.  A start call while a
recording is active fails with the explicit "already recording"
message and returns the state untouched (nothing is replaced or
restarted); the guarded admin route likewise answers 400 without
touching the state; and after a successful stop the camera is idle,
so a start can succeed again. -/
theorem recording_single_active (s : RecState) (path : String) (now : Nat)
    (hw : Bool) (s2 : RecState) (hw2 : Bool) (path2 : String) (now2 : Nat)
    (cur : Option String) :
    (s.is_recording = true →
       start_recording s path now hw = (s, false, "Es läuft bereits eine Aufnahme")) ∧
    (cur.isSome = true → s.is_recording = true →
       admin_start_recording cur s false path now hw = (cur, s, 400)) ∧
    ((stop_recording s2 hw2).2 = true →
       (stop_recording s2 hw2).1.is_recording = false ∧
       (start_recording (stop_recording s2 hw2).1 path2 now2 true).2.1 = true) := by
  refine ⟨fun h => ?_, fun h1 h2 => ?_, fun h => ?_⟩
  · simp [start_recording, h]
  · simp [admin_start_recording, h1, h2]
  · cases hrec : s2.is_recording with
    | false => simp [stop_recording, hrec] at h
    | true =>
      cases hw2 with
      | false => simp [stop_recording, hrec] at h
      | true =>
        constructor
        · simp [stop_recording, hrec]
        · simp [stop_recording, start_recording, hrec]

/-- C8 witness: with a recording active, a second start fails with
the "already recording" message; after stopping it, starting again
succeeds. -/
theorem recording_single_active_witness :
    start_recording rec_active "b.mp4" 9 true =
      (rec_active, false, "Es läuft bereits eine Aufnahme") ∧
    (start_recording (stop_recording rec_active true).1 "b.mp4" 9 true).2.1 = true :=
  ⟨(recording_single_active rec_active "b.mp4" 9 true rec_active true "b.mp4" 9
      none).1 rfl,
   ((recording_single_active rec_active "b.mp4" 9 true rec_active true "b.mp4" 9
      none).2.2 (by decide)).2⟩

end VRRacer

namespace VRRacer

/-- The existence check distributes over list append. -/
theorem username_exists_append (l1 l2 : List Row) (u : String) :
    username_exists (l1 ++ l2) u =
      (username_exists l1 u || username_exists l2 u) := by
  simp [username_exists, List.any_append]

/-- The existence check holds on a singleton row encrypting the
searched name. -/
theorem username_exists_enc_self (i : Nat) (ph : String) (a : Nat) (nm : String) :
    username_exists
      [{ id := i, username := Ciph.enc nm, password_hash := ph, is_admin := a }]
      nm = true := by
  simp [username_exists, decrypt]

/-- A name in the decryptable-name set satisfies the existence
check. -/
theorem contains_existing_names (rows : List Row) (nm : String)
    (h : (existing_names rows).contains nm = true) :
    username_exists rows nm = true := by
  have hmem : nm ∈ existing_names rows := by
    rcases List.contains_iff_exists_mem_beq.mp h with ⟨x, hx, hbeq⟩
    have hx2 : nm = x := by simpa using hbeq
    exact hx2 ▸ hx
  rcases List.mem_filterMap.mp hmem with ⟨r, hr, hd⟩
  unfold username_exists
  rw [List.any_eq_true]
  exact ⟨r, hr, by simp [hd]⟩

/-- Case analysis of one seeding step: skipped for an empty password,
skipped when the name is already present (leaving the store exactly as
it was), or a fresh admin row appended. -/
theorem seed_admin_rows (names : List String) (st : Store) (name pw : String) :
    (pw = "" ∧ seed_admin names st name pw = st) ∨
    (names.contains name = true ∧ seed_admin names st name pw = st) ∨
    (pw ≠ "" ∧ names.contains name = false ∧
      (seed_admin names st name pw).rows =
        st.rows ++ [{ id := st.nextId, username := Ciph.enc name,
                      password_hash := hash_pw pw, is_admin := 1 }]) := by
  unfold seed_admin
  by_cases h1 : pw == ""
  · exact Or.inl ⟨by simpa using h1, by rw [if_pos h1]⟩
  · by_cases h2 : names.contains name
    · refine Or.inr (Or.inl ⟨h2, ?_⟩)
      rw [if_neg h1, if_pos h2]
    · refine Or.inr (Or.inr ⟨by simpa using h1, by simpa using h2, ?_⟩)
      rw [if_neg h1, if_neg h2]

end VRRacer

namespace VRRacer.Denis

/-- Membership in the result of a forced `create_user`: every row is
either an untouched old row whose name differs from the target, or a
row carrying the target name whose credential was set to the salted
hash of the given password and whose admin flag was set. -/
theorem create_user_force_mem (rows : List DRow) (uname pw : String)
    (adm : Bool) (em : Option String) (salt : String) (r : DRow)
    (hr : r ∈ (create_user rows uname pw adm em true salt).1) :
    (r ∈ rows ∧ r.username ≠ uname) ∨
    (r.username = uname ∧ r.password_hash = hash_password salt pw ∧
     r.is_admin = adm) := by
  unfold create_user at hr
  simp only [Bool.not_true, Bool.and_false] at hr
  by_cases hp : rows.any (fun x => x.username == uname)
  · rw [if_neg (by simp)] at hr
    rw [if_pos hp] at hr
    simp only at hr
    rcases List.mem_map.mp hr with ⟨x, hx, hfx⟩
    by_cases hxu : x.username == uname
    · rw [if_pos hxu] at hfx
      refine Or.inr ?_
      rw [← hfx]
      exact ⟨by simpa using hxu, rfl, rfl⟩
    · rw [if_neg hxu] at hfx
      exact Or.inl ⟨hfx ▸ hx, by rw [← hfx]; simpa using hxu⟩
  · rw [if_neg (by simp)] at hr
    rw [if_neg hp] at hr
    simp only at hr
    rcases List.mem_append.mp hr with hold | hnew
    · refine Or.inl ⟨hold, ?_⟩
      have := (List.any_eq_true.not.mp hp)
      push_neg at this
      have h2 := this r hold
      simpa using h2
    · refine Or.inr ?_
      have hr2 : r = { username := uname, password_hash := hash_password salt pw,
                       is_admin := adm, email := em } := by simpa using hnew
      rw [hr2]
      exact ⟨rfl, rfl, rfl⟩

/-- After `create_default_admins`, every row named `Admin_G` carries
the salted hash of the hard-coded password "admin1234", and every row
named `Admin_D` carries the salted hash of the hard-coded password
"123456789": the seeded admin credentials are force-reset on every
start, to literals rather than environment values. -/
theorem default_admins_reset (rows : List DRow) (s1 s2 : String)
    (r : DRow) (hr : r ∈ create_default_admins rows s1 s2) :
    (r.username = "Admin_G" → r.password_hash = hash_password s1 "admin1234") ∧
    (r.username = "Admin_D" → r.password_hash = hash_password s2 "123456789") := by
  unfold create_default_admins at hr
  rcases create_user_force_mem _ _ _ _ _ _ _ hr with ⟨h1, hne⟩ | ⟨hu, hh, _⟩
  · rcases create_user_force_mem _ _ _ _ _ _ _ h1 with ⟨_, hne2⟩ | ⟨hu, hh, _⟩
    · exact ⟨fun h => absurd h hne2, fun h => absurd h hne⟩
    · refine ⟨fun _ => hh, fun h => ?_⟩
      rw [hu] at h
      exact absurd h (by decide)
  · refine ⟨fun h => ?_, fun _ => hh⟩
    rw [hu] at h
    exact absurd h (by decide)

end VRRacer.Denis

namespace VRRacer

/-- C6 counterexample: start the server (`init_db` with
`ADMIN_G_PASS = ADMIN_D_PASS = "admin123"`) over a store that already
holds a record decrypting to `Admin_G` with a stale password hash and
a cleared admin flag.  After initialisation that record is completely
unchanged: its credential is still the stale hash, not the hash of the
configured value, and even its admin flag is still 0.  Only the
missing `Admin_D` is inserted. -/
theorem init_db_keeps_stale_admin_record :
    (init_db st_c6 "admin123" "admin123").rows =
      [{ id := 1, username := Ciph.enc "Admin_G",
         password_hash := "stale-hash", is_admin := 0 },
       { id := 2, username := Ciph.enc "Admin_D",
         password_hash := hash_pw "admin123", is_admin := 1 }] ∧
    "stale-hash" ≠ hash_pw "admin123" := by
  constructor
  · decide
  · decide

/-- C6 (amended): at every startup `init_db` leaves all existing rows
completely unchanged and appends at most the two seeded admins: a
fresh row (admin flag set, credential the hash of the configured
environment value) is appended for a seeded name exactly when the
configured password is non-empty and no existing row decrypts to that
name; whenever the configured password is non-empty, a record for the
name exists afterwards.  Separately, the Denis_Version
`create_default_admins` does force-reset the two admin credentials on
every start, but to the hard-coded literals of `auth.py`, not to
environment values. -/
theorem init_db_rows_eq (st : Store) (gp dp : String) :
    ∃ eg ed : List Row,
      (init_db st gp dp).rows = st.rows ++ eg ++ ed ∧
      ((eg = [] ∧ (gp = "" ∨ (existing_names st.rows).contains "Admin_G" = true)) ∨
        (gp ≠ "" ∧ (existing_names st.rows).contains "Admin_G" = false ∧
         eg = [{ id := st.nextId, username := Ciph.enc "Admin_G",
                 password_hash := hash_pw gp, is_admin := 1 }])) ∧
      ((ed = [] ∧ (dp = "" ∨ (existing_names st.rows).contains "Admin_D" = true)) ∨
        (dp ≠ "" ∧ (existing_names st.rows).contains "Admin_D" = false ∧
         ∃ j, ed = [{ id := j, username := Ciph.enc "Admin_D",
                      password_hash := hash_pw dp, is_admin := 1 }])) := by
  have hres : init_db st gp dp =
      seed_admin (existing_names st.rows)
        (seed_admin (existing_names st.rows) st "Admin_G" gp) "Admin_D" dp := rfl
  rcases seed_admin_rows (existing_names st.rows) st "Admin_G" gp with
    ⟨hgp, hg⟩ | ⟨hgc, hg⟩ | ⟨hgp, hgc, hg⟩
  · rw [hg] at hres
    rcases seed_admin_rows (existing_names st.rows) st "Admin_D" dp with
      ⟨hdp, hd⟩ | ⟨hdc, hd⟩ | ⟨hdp, hdc, hd⟩
    · exact ⟨[], [], by rw [hres, hd]; simp,
        Or.inl ⟨rfl, Or.inl hgp⟩, Or.inl ⟨rfl, Or.inl hdp⟩⟩
    · exact ⟨[], [], by rw [hres, hd]; simp,
        Or.inl ⟨rfl, Or.inl hgp⟩, Or.inl ⟨rfl, Or.inr hdc⟩⟩
    · exact ⟨[], [⟨st.nextId, Ciph.enc "Admin_D", hash_pw dp, 1⟩],
        by rw [hres, hd]; simp,
        Or.inl ⟨rfl, Or.inl hgp⟩, Or.inr ⟨hdp, hdc, st.nextId, rfl⟩⟩
  · rw [hg] at hres
    rcases seed_admin_rows (existing_names st.rows) st "Admin_D" dp with
      ⟨hdp, hd⟩ | ⟨hdc, hd⟩ | ⟨hdp, hdc, hd⟩
    · exact ⟨[], [], by rw [hres, hd]; simp,
        Or.inl ⟨rfl, Or.inr hgc⟩, Or.inl ⟨rfl, Or.inl hdp⟩⟩
    · exact ⟨[], [], by rw [hres, hd]; simp,
        Or.inl ⟨rfl, Or.inr hgc⟩, Or.inl ⟨rfl, Or.inr hdc⟩⟩
    · exact ⟨[], [⟨st.nextId, Ciph.enc "Admin_D", hash_pw dp, 1⟩],
        by rw [hres, hd]; simp,
        Or.inl ⟨rfl, Or.inr hgc⟩, Or.inr ⟨hdp, hdc, st.nextId, rfl⟩⟩
  · have hd2 := seed_admin_rows (existing_names st.rows)
      (seed_admin (existing_names st.rows) st "Admin_G" gp) "Admin_D" dp
    rcases hd2 with ⟨hdp, hd⟩ | ⟨hdc, hd⟩ | ⟨hdp, hdc, hd⟩
    · exact ⟨[⟨st.nextId, Ciph.enc "Admin_G", hash_pw gp, 1⟩], [],
        by rw [hres, hd, hg]; simp,
        Or.inr ⟨hgp, hgc, rfl⟩, Or.inl ⟨rfl, Or.inl hdp⟩⟩
    · exact ⟨[⟨st.nextId, Ciph.enc "Admin_G", hash_pw gp, 1⟩], [],
        by rw [hres, hd, hg]; simp,
        Or.inr ⟨hgp, hgc, rfl⟩, Or.inl ⟨rfl, Or.inr hdc⟩⟩
    · exact ⟨[⟨st.nextId, Ciph.enc "Admin_G", hash_pw gp, 1⟩],
        [⟨(seed_admin (existing_names st.rows) st "Admin_G" gp).nextId,
          Ciph.enc "Admin_D", hash_pw dp, 1⟩],
        by rw [hres, hd, hg],
        Or.inr ⟨hgp, hgc, rfl⟩,
        Or.inr ⟨hdp, hdc,
          (seed_admin (existing_names st.rows) st "Admin_G" gp).nextId, rfl⟩⟩

/-- C6 (amended): at every startup `init_db` leaves all existing rows
completely unchanged and appends at most the two seeded admins: a
fresh row (admin flag set, credential the hash of the configured
environment value) is appended for a seeded name exactly when the
configured password is non-empty and no existing row decrypts to that
name; whenever the configured password is non-empty, a record for the
name exists afterwards.  Separately, the Denis_Version
`create_default_admins` does force-reset the two admin credentials on
every start, but to the hard-coded literals of `auth.py`, not to
environment values. -/
theorem init_db_spec (st : Store) (gp dp : String) :
    ((init_db st gp dp).rows.take st.rows.length = st.rows) ∧
    (∀ r : Row, r ∈ (init_db st gp dp).rows → r ∈ st.rows ∨
       (r.is_admin = 1 ∧
         ((r.username = Ciph.enc "Admin_G" ∧ r.password_hash = hash_pw gp) ∨
          (r.username = Ciph.enc "Admin_D" ∧ r.password_hash = hash_pw dp)))) ∧
    (gp ≠ "" → username_exists (init_db st gp dp).rows "Admin_G" = true) ∧
    (dp ≠ "" → username_exists (init_db st gp dp).rows "Admin_D" = true) ∧
    (∀ (rows : List Denis.DRow) (s1 s2 : String) (r : Denis.DRow),
       r ∈ Denis.create_default_admins rows s1 s2 →
       (r.username = "Admin_G" →
          r.password_hash = Denis.hash_password s1 "admin1234") ∧
       (r.username = "Admin_D" →
          r.password_hash = Denis.hash_password s2 "123456789")) := by
  obtain ⟨eg, ed, hrows, hegc, hedc⟩ := init_db_rows_eq st gp dp
  refine ⟨?_, ?_, ?_, ?_, fun rows s1 s2 r hr =>
    Denis.default_admins_reset rows s1 s2 r hr⟩
  · rw [hrows, List.append_assoc]
    exact List.take_left st.rows _
  · intro r hr
    rw [hrows] at hr
    rcases List.mem_append.mp hr with h1 | hed
    · rcases List.mem_append.mp h1 with h0 | heg
      · exact Or.inl h0
      · rcases hegc with ⟨he, _⟩ | ⟨_, _, he⟩
        · rw [he] at heg; cases heg
        · rw [he] at heg
          have hr2 := List.mem_singleton.mp heg
          rw [hr2]
          exact Or.inr ⟨rfl, Or.inl ⟨rfl, rfl⟩⟩
    · rcases hedc with ⟨he, _⟩ | ⟨_, _, j, he⟩
      · rw [he] at hed; cases hed
      · rw [he] at hed
        have hr2 := List.mem_singleton.mp hed
        rw [hr2]
        exact Or.inr ⟨rfl, Or.inr ⟨rfl, rfl⟩⟩
  · intro h
    rw [hrows, username_exists_append, username_exists_append]
    rcases hegc with ⟨he, hor⟩ | ⟨_, _, he⟩
    · rcases hor with hgp | hgc
      · exact absurd hgp h
      · simp [contains_existing_names st.rows "Admin_G" hgc]
    · rw [he]
      simp [username_exists_enc_self]
  · intro h
    rw [hrows, username_exists_append, username_exists_append]
    rcases hedc with ⟨he, hor⟩ | ⟨_, _, j, he⟩
    · rcases hor with hdp | hdc
      · exact absurd hdp h
      · simp [contains_existing_names st.rows "Admin_D" hdc]
    · rw [he]
      simp [username_exists_enc_self]

/-- C6 witness: seeding the empty store with non-empty configured
passwords makes both admin names exist, and the Denis reset behavior
at a concrete store. -/
theorem init_db_spec_witness :
    username_exists (init_db { rows := [], nextId := 1 } "pwG" "pwD").rows
      "Admin_G" = true ∧
    username_exists (init_db { rows := [], nextId := 1 } "pwG" "pwD").rows
      "Admin_D" = true :=
  ⟨(init_db_spec { rows := [], nextId := 1 } "pwG" "pwD").2.2.1 (by decide),
   (init_db_spec { rows := [], nextId := 1 } "pwG" "pwD").2.2.2.1 (by decide)⟩

end VRRacer
